import Mathlib

/-!
# Verification of `twisted/application/app.py`

A shallow embedding of the startup harness in `src/twisted/application/app.py`:
option post-processing (`ServerOptions.postOptions`), application loading
(`getApplication`, `ApplicationRunner.createOrGetApplication`), profiler
selection (`AppProfiler`), the profiler runners (`ProfileRunner.run`,
`HotshotRunner.run`), reactor execution with crash logging
(`runReactorWithLogging`), the top-level `run` entry point, and
`startApplication`.

Python values that can be `None` or a string are modelled as `Option String`;
Python truthiness of such a value (`None` and `""` are falsy) is `pyTruthy`.
External collaborators (the persistence loader, the reactor) are parameters or
small models noted in their doc comments.
-/

namespace TwistedApp

/-- Python truthiness of an optional-string option value: `None` and the empty
string are falsy, every other string is truthy. -/
def pyTruthy : Option String → Bool
  | none => false
  | some s => s ≠ ""

/-- The configuration mapping produced by `ServerOptions`.  Fields mirror the
keys read by the code in `app.py`: the four application-source selectors
(`python`, `xml`, `source`, `file` — `file` defaults to `"twistd.tap"` per
`optParameters`), the persistence/encryption flags, the profiler options
(`profiler` defaults to `"hotshot"`), the debug flag, the `nodaemon` key read
by `runReactorWithLogging`, and the selected sub-command. -/
structure ServerConfig where
  python : Option String := none
  xml : Option String := none
  source : Option String := none
  file : Option String := some "twistd.tap"
  encrypted : Bool := false
  no_save : Bool := false
  debug : Bool := false
  nodaemon : Bool := false
  profile : Option String := none
  profiler : Option String := some "hotshot"
  savestats : Bool := false
  nothotshot : Bool := false
  subCommand : Option String := none
  deriving Repr, DecidableEq

/-- `config[t]` for the four application-source selector keys. -/
def ServerConfig.getSelector (config : ServerConfig) : String → Option String
  | "python" => config.python
  | "xml" => config.xml
  | "source" => config.source
  | "file" => config.file
  | _ => none

/-- `"%s" % v` for an optional string: `None` renders as `"None"`.  Also used
to read the string out of an option value known to be truthy. -/
def pyFormat : Option String → String
  | none => "None"
  | some s => s

/-- The candidate list built by `getApplication`:
`[(config[t], t) for t in ['python', 'xml', 'source', 'file'] if config[t]]`
(the `if config[t]` filter is Python truthiness; when it passes, `config[t]`
is the contained string). -/
def sourceCandidates (config : ServerConfig) : List (String × String) :=
  ["python", "xml", "source", "file"].filterMap fun t =>
    if pyTruthy (config.getSelector t) then
      some (pyFormat (config.getSelector t), t)
    else none

/-- `{'file':'pickle'}.get(s[1], s[1])`: the persistence style for a selector
key. -/
def styleOf (t : String) : String :=
  if t = "file" then "pickle" else t

/-- A Python exception raised by `service.loadApplication`, as far as
`getApplication` inspects it: a `KeyError` carrying its single argument, or
any other exception carrying its string form. -/
inductive PyExc where
  | keyError (arg : String)
  | other (msg : String)
  deriving Repr, DecidableEq

/-- `"%s" % e` for an exception: `str(KeyError(a))` is the `repr` of the
argument (quoted), any other exception renders as its message. -/
def PyExc.str : PyExc → String
  | .keyError a => "'" ++ a ++ "'"
  | .other m => m

/-- The extra help text appended by `getApplication` when the failure is
`KeyError("application")`. -/
def appVarHelp : String :=
  "\nCould not find 'application' in the file. To use 'twistd -y', your .tac\n" ++
  "file must create a suitable object (e.g., by calling service.Application())\n" ++
  "and store it in a variable named 'application'. twistd loads your .tac file\n" ++
  "and scans the global variables for one of this name.\n\n" ++
  "Please read the 'Using Application' HOWTO for details.\n"

/-- The outcome of `getApplication`: a loaded application, a `sys.exit(msg)`
call (which terminates the process with status 1 since `msg` is a string), or
an uncaught `IndexError` from the `[0]` indexing when the candidate list is
empty (the indexing happens before the `try` block). -/
inductive GetAppResult (α : Type) where
  | ok (app : α)
  | exit (msg : String)
  | indexError
  deriving Repr, DecidableEq

/-- `getApplication(config, passphrase)` from `app.py`, parameterised by the
external loader `service.loadApplication` (filename, style, passphrase). -/
def getApplication (load : String → String → Option String → Except PyExc α)
    (config : ServerConfig) (passphrase : Option String) : GetAppResult α :=
  match sourceCandidates config with
  | [] => .indexError
  | (filename, t) :: _ =>
    match load filename (styleOf t) passphrase with
    | .ok application => .ok application
    | .error e =>
      let s := "Failed to load application: " ++ e.str
      let s := if e matches .keyError "application" then s ++ appVarHelp else s
      .exit ("\n" ++ s ++ "\n")

/-- `ServerOptions.postOptions`: set `no_save` when a sub-command was selected
or the `python` option is truthy; this is the only validation hook the class
defines, and it cannot fail. -/
def postOptions (config : ServerConfig) : ServerConfig :=
  if pyTruthy config.subCommand || pyTruthy config.python then
    { config with no_save := true }
  else
    config

/-- `ServerOptions.zsh_mutuallyExclusive`: metadata consumed only by the zsh
completion generator; no parsing or validation code reads it. -/
def zsh_mutuallyExclusive : List (List String) :=
  [["file", "python", "xml", "source"]]

/-- `getPassphrase(needed)`: prompts interactively when `needed`; the typed
passphrase is the `input` parameter. -/
def getPassphrase (needed : Bool) (input : String) : Option String :=
  if needed then some input else none

/-! ## `AppProfiler` and the profiler runners -/

/-- The outcome of `AppProfiler.__init__`: either the name of the selected
runner backend, or `raise SystemExit(msg)`. -/
inductive AppProfilerResult where
  | ok (backend : String)
  | systemExit (msg : String)
  deriving Repr, DecidableEq

/-- `AppProfiler.profilers`: the keys of the backend registry
`{"profile": ProfileRunner, "hotshot": HotshotRunner}`. -/
def profilers : List String := ["profile", "hotshot"]

/-- `AppProfiler.__init__(options)`: read `profiler` from the options, force
it to `"profile"` when the deprecated `nothotshot` flag is set, then either
select the registered runner or `raise SystemExit("Unsupported profiler
name: %s" % (self.profiler,))`. -/
def appProfiler (options : ServerConfig) : AppProfilerResult :=
  let profiler := if options.nothotshot then some "profile" else options.profiler
  if (profilers.map some).contains profiler then
    .ok (pyFormat profiler)
  else
    .systemExit ("Unsupported profiler name: " ++ pyFormat profiler)

/-- A file-like sink: either a pre-existing handle (such as the original
`sys.stdout`), or a file opened by name and mode. -/
inductive Sink where
  | handle (name : String)
  | opened (path : String) (mode : String)
  deriving Repr, DecidableEq

/-- `_BasicProfiler.__init__(profileOutput, saveStats)`. -/
structure BasicProfiler where
  profileOutput : String
  saveStats : Bool
  deriving Repr, DecidableEq

/-- The observable outcome of a profiler runner's `run(reactor)` call:
how many times `reactor.run` was invoked, where statistics landed
(`raw = true` for the raw stats object, `false` for formatted text),
the value of `sys.stdout` after the call returns or raises, and the
exception escaping the call, if any. -/
structure ProfRunOutcome where
  reactorRuns : Nat
  statsOutput : Option (String × Bool)
  finalStdout : Sink
  exc : Option String
  deriving Repr, DecidableEq

/-- The `SystemExit` message raised by `_BasicProfiler._reportImportError`. -/
def importErrorMsg (module : String) : String :=
  "Failed to import module " ++ module ++
  ": ImportError\nThis is most likely caused by your operating system not including\n" ++
  "the module due to it being non-free. Either do not use the option\n" ++
  "--profile, or install the module; your operating system vendor\n" ++
  "may provide it in a separate package.\n"

/-- `ProfileRunner.run(reactor)`.  `initStdout` is `sys.stdout` on entry;
`importOk` is whether `import profile` succeeds; `printFails` is whether
`p.print_stats()` raises.  On the non-`saveStats` path, `sys.stdout` is
swapped with `open(profileOutput, 'a')` and restored in a `finally`
block, so the formatted output goes to `profileOutput` and `sys.stdout`
ends up back at `initStdout` even when printing raises. -/
def profileRunnerRun (self : BasicProfiler) (initStdout : Sink)
    (importOk : Bool) (printFails : Bool) : ProfRunOutcome :=
  if !importOk then
    { reactorRuns := 0, statsOutput := none, finalStdout := initStdout,
      exc := some (importErrorMsg "profile") }
  else if self.saveStats then
    { reactorRuns := 1, statsOutput := some (self.profileOutput, true),
      finalStdout := initStdout, exc := none }
  else
    { reactorRuns := 1,
      statsOutput := if printFails then none else some (self.profileOutput, false),
      finalStdout := initStdout,
      exc := if printFails then some "print_stats error" else none }

/-- `HotshotRunner.run(reactor)`.  `hasStream` is whether the loaded stats
object has a `stream` attribute (Python 2.5 and above); on that branch the
formatted output is written through `s.stream = open(profileOutput, 'w')`
and `sys.stdout` is never touched, on the fallback branch `sys.stdout` is
swapped and restored in a `finally` block exactly as in `ProfileRunner`.
With `saveStats`, hotshot has already written the raw stats to
`profileOutput` during profiling and `run` just returns. -/
def hotshotRunnerRun (self : BasicProfiler) (initStdout : Sink)
    (importOk : Bool) (hasStream : Bool) (printFails : Bool) : ProfRunOutcome :=
  if !importOk then
    { reactorRuns := 0, statsOutput := none, finalStdout := initStdout,
      exc := some (importErrorMsg "hotshot") }
  else if self.saveStats then
    { reactorRuns := 1, statsOutput := some (self.profileOutput, true),
      finalStdout := initStdout, exc := none }
  else if hasStream then
    { reactorRuns := 1,
      statsOutput := if printFails then none else some (self.profileOutput, false),
      finalStdout := initStdout,
      exc := if printFails then some "print_stats error" else none }
  else
    { reactorRuns := 1,
      statsOutput := if printFails then none else some (self.profileOutput, false),
      finalStdout := initStdout,
      exc := if printFails then some "print_stats error" else none }

/-! ## `runReactorWithLogging` -/

/-- Which call `runReactorWithLogging` dispatches to inside its `try`
block. -/
inductive ReactorCall where
  | profilerRun
  | runWithHotshot
  | runWithProfiler
  | pdbRunReactor
  | plainRun
  deriving Repr, DecidableEq

/-- The branch selection inside `runReactorWithLogging`'s `try` block:
profiled (through the profiler object or the deprecated fallbacks), the
debugger path, or a bare `reactor.run()`. -/
def reactorDispatch (config : ServerConfig) (profilerPresent : Bool) : ReactorCall :=
  if pyTruthy config.profile then
    if profilerPresent then .profilerRun
    else if !config.nothotshot then .runWithHotshot
    else .runWithProfiler
  else if config.debug then .pdbRunReactor
  else .plainRun

/-- The observable outcome of `runReactorWithLogging`: the call dispatched
to, where the crash traceback was written (if the body raised), whether
that sink was flushed, and the exception escaping the function, if any. -/
structure LoggedRunOutcome where
  call : ReactorCall
  crashSink : Option Sink
  flushed : Bool
  raised : Option PyExc
  deriving Repr, DecidableEq

/-- `runReactorWithLogging(config, oldstdout, oldstderr, profiler)`:
dispatch to the selected run path inside a bare `try`; `bodyExc` is the
exception escaping that body, if any.  The single `except:` clause writes
the traceback to `oldstdout` when `config['nodaemon']` is set and to
`open("TWISTD-CRASH.log", 'a')` otherwise, flushes that file, and does
not re-raise. -/
def runReactorWithLogging (config : ServerConfig) (oldstdout : Sink)
    (profilerPresent : Bool) (bodyExc : Option PyExc) : LoggedRunOutcome :=
  let call := reactorDispatch config profilerPresent
  match bodyExc with
  | none => { call := call, crashSink := none, flushed := false, raised := none }
  | some _ =>
    let file := if config.nodaemon then oldstdout else Sink.opened "TWISTD-CRASH.log" "a"
    { call := call, crashSink := some file, flushed := true, raised := none }

/-! ## The top-level `run` entry point -/

/-- The observable outcome of `run(runApp, ServerOptions)`: the lines
printed to standard output, whether `runApp(config)` was invoked, and the
process exit status. -/
structure RunOutcome where
  printed : List String
  appStarted : Bool
  exitCode : Nat
  deriving Repr, DecidableEq

/-- `run(runApp, ServerOptions)` from `app.py`.  `argv0` is `sys.argv[0]`;
`usageText` is `str(config)` (the usage/help text `usage.Options`
renders); `parseResult` is the outcome of `config.parseOptions()`,
carrying the usage error message when the arguments are malformed.  On a
usage error the function prints the usage text and `"argv0: message"`
to standard output and returns normally, so the interpreter exits with
status 0; otherwise it calls `runApp(config)`. -/
def runEntry (argv0 : String) (usageText : String)
    (parseResult : Except String ServerConfig) : RunOutcome :=
  match parseResult with
  | .error ue =>
    { printed := [usageText, argv0 ++ ": " ++ ue], appStarted := false, exitCode := 0 }
  | .ok _ =>
    { printed := [], appStarted := true, exitCode := 0 }

/-! ## `createOrGetApplication` -/

/-- A `service.IServiceMaker` plugin: a `tapname` and a `makeService`
operation building a service from the sub-command's options.  `ω` is the
type of the sub-command's options object, `σ` the type of services. -/
structure Plugin (ω σ : Type) where
  tapname : String
  makeService : ω → σ

/-- A `service.Application` container: `service.Application(name)` creates
it with no children; `ser.setServiceParent(application)` appends `ser`. -/
structure Application (σ : Type) where
  name : String
  children : List σ
  deriving Repr, DecidableEq

/-- The inputs `ApplicationRunner.createOrGetApplication` reads from its
config object: the base option mapping, the sub-command's own options, and
the `loadedPlugins` mapping from tapname to plugin. -/
structure RunnerConfig (ω σ : Type) where
  base : ServerConfig
  subOptions : ω
  loadedPlugins : List (String × Plugin ω σ)

/-- The outcome of `createOrGetApplication`: a freshly constructed
application (sub-command path), the result of `getApplication` (file
path), or an uncaught `KeyError` from the `loadedPlugins` lookup. -/
inductive CreateOrGet (σ α : Type) where
  | subApp (app : Application σ)
  | fromFile (result : GetAppResult α)
  | pluginKeyError (name : String)
  deriving Repr, DecidableEq

/-- `ApplicationRunner.createOrGetApplication()`: when a sub-command was
selected, look up its plugin in `loadedPlugins`, build the service with
the sub-command's options, create `service.Application(plg.tapname)` and
attach the service to it; otherwise read the passphrase if `encrypted`
and call `getApplication`.  `load` is the external
`service.loadApplication`; `passInput` is the interactively typed
passphrase. -/
def createOrGetApplication (cfg : RunnerConfig ω σ)
    (load : String → String → Option String → Except PyExc α)
    (passInput : String) : CreateOrGet σ α :=
  if pyTruthy cfg.base.subCommand then
    let sc := pyFormat cfg.base.subCommand
    match (cfg.loadedPlugins.find? fun p => p.1 = sc) with
    | some (_, plg) =>
      let ser := plg.makeService cfg.subOptions
      let application : Application σ := { name := plg.tapname, children := [] }
      .subApp { application with children := application.children ++ [ser] }
    | none => .pluginKeyError sc
  else
    let passphrase := getPassphrase cfg.base.encrypted passInput
    .fromFile (getApplication load cfg.base passphrase)

/-! ## `startApplication` -/

/-- The phase argument of `reactor.addSystemEventTrigger`. -/
inductive Phase where
  | before
  | during
  | after
  deriving Repr, DecidableEq

/-- The callbacks `startApplication` registers or invokes, named
symbolically. -/
inductive AppAction where
  | startService
  | stopService
  | saveApp
  deriving Repr, DecidableEq

/-- A registered system event trigger: phase, event name, callback. -/
structure Trigger where
  phase : Phase
  event : String
  callback : AppAction
  deriving Repr, DecidableEq

/-- `startApplication(application, save)`: call
`service.IService(application).startService()`, then when `save` register
`('after', 'shutdown', p.save, 'shutdown')` and always register
`('before', 'shutdown', stopService)`.  Returns the immediate actions and
the triggers in registration order. -/
def startApplication (save : Bool) : List AppAction × List Trigger :=
  ([AppAction.startService],
   (if save then [{ phase := Phase.after, event := "shutdown",
                    callback := AppAction.saveApp }] else []) ++
   [{ phase := Phase.before, event := "shutdown",
      callback := AppAction.stopService }])

/-- Modelled from the spec: the reactor (an external collaborator, not in
`src/`) fires the `'shutdown'` system event by running the `'before'`
phase triggers, then the `'during'` phase, then the `'after'` phase, each
synchronously in registration order. -/
def fireShutdown (triggers : List Trigger) : List AppAction :=
  let ofPhase := fun (ph : Phase) =>
    (triggers.filter fun t => t.phase = ph ∧ t.event = "shutdown").map (·.callback)
  ofPhase Phase.before ++ ofPhase Phase.during ++ ofPhase Phase.after

/-! ## Helper lemmas -/

/-- `postOptions` only writes `no_save`; the candidate list is unchanged. -/
theorem sourceCandidates_postOptions (config : ServerConfig) :
    sourceCandidates (postOptions config) = sourceCandidates config := by
  unfold postOptions
  split <;> rfl

/-- A truthy `python` option always heads the candidate list. -/
theorem sourceCandidates_head_python (config : ServerConfig)
    (h : pyTruthy config.python = true) :
    (sourceCandidates config).head? = some (pyFormat config.python, "python") := by
  simp [sourceCandidates, ServerConfig.getSelector, h]

/-- The candidate list, written as the concatenation of the four per-selector
contributions in priority order. -/
theorem sourceCandidates_eq (config : ServerConfig) :
    sourceCandidates config =
      (if pyTruthy config.python then [(pyFormat config.python, "python")] else []) ++
      ((if pyTruthy config.xml then [(pyFormat config.xml, "xml")] else []) ++
       ((if pyTruthy config.source then [(pyFormat config.source, "source")] else []) ++
        (if pyTruthy config.file then [(pyFormat config.file, "file")] else []))) := by
  simp only [sourceCandidates, ServerConfig.getSelector, List.filterMap_cons,
    List.filterMap_nil]
  split_ifs <;> rfl

/-- A non-empty candidate list rules out the uncaught indexing error in
`getApplication`. -/
theorem getApplication_ne_indexError
    (load : String → String → Option String → Except PyExc α)
    (config : ServerConfig) (pp : Option String)
    (h : sourceCandidates config ≠ []) :
    getApplication load config pp ≠ GetAppResult.indexError := by
  unfold getApplication
  cases hc : sourceCandidates config with
  | nil => exact absurd hc h
  | cons hd tl =>
    obtain ⟨filename, t⟩ := hd
    rcases hl : load filename (styleOf t) pp with a | e <;> simp [hl]

/-! ## Claim theorems -/

/-- Claim C1, counterexample: with both the `python` and `xml` selectors set,
option parsing does not fail — `postOptions` (the only validation hook
`ServerOptions` defines) returns a configuration, and `getApplication`
proceeds to file I/O and successfully loads an application.  No usage error
occurs, refuting the claim that setting two selectors fails at the
option-parsing layer. -/
theorem c1_two_selectors_parse_and_load :
    pyTruthy ({ python := some "app.py", xml := some "app.tax" } :
      ServerConfig).python = true ∧
    pyTruthy ({ python := some "app.py", xml := some "app.tax" } :
      ServerConfig).xml = true ∧
    postOptions { python := some "app.py", xml := some "app.tax" } =
      { python := some "app.py", xml := some "app.tax", no_save := true } ∧
    getApplication (fun f _ _ => Except.ok f)
      (postOptions { python := some "app.py", xml := some "app.tax" }) none =
      GetAppResult.ok "app.py" :=
  ⟨rfl, rfl, rfl, rfl⟩

/-- Claim C1, amended: setting more than one application-source selector does
not yield a usage error.  The option-parsing layer's `postOptions` hook
cannot fail, and `getApplication` silently selects the highest-priority
selector — with `python` and `xml` both set, the `python` source heads the
candidate list and the load proceeds; mutual exclusion of the four selectors
appears only in the zsh completion metadata. -/
theorem c1_multiple_selectors_silently_prioritized (config : ServerConfig)
    (load : String → String → Option String → Except PyExc α)
    (pp : Option String)
    (h1 : pyTruthy config.python = true) (_h2 : pyTruthy config.xml = true) :
    (sourceCandidates (postOptions config)).head? =
      some (pyFormat config.python, "python") ∧
    getApplication load (postOptions config) pp ≠ GetAppResult.indexError := by
  have hc : (sourceCandidates (postOptions config)).head? =
      some (pyFormat config.python, "python") := by
    rw [sourceCandidates_postOptions]
    exact sourceCandidates_head_python config h1
  refine ⟨hc, getApplication_ne_indexError load (postOptions config) pp ?_⟩
  intro hnil
  rw [hnil] at hc
  exact Option.noConfusion hc

/-- Claim C1 witness: the amended theorem applied at a concrete configuration
with two selectors set. -/
theorem c1_multiple_selectors_silently_prioritized_witness :
    pyTruthy (some "app.py") = true ∧ pyTruthy (some "app.tax") = true ∧
    ((sourceCandidates (postOptions
        { python := some "app.py", xml := some "app.tax" })).head? =
      some ("app.py", "python") ∧
     getApplication (fun f _ _ => Except.ok f)
        (postOptions { python := some "app.py", xml := some "app.tax" }) none ≠
      GetAppResult.indexError) :=
  ⟨by decide, by decide,
   c1_multiple_selectors_silently_prioritized
     { python := some "app.py", xml := some "app.tax" }
     (fun f _ _ => Except.ok f) none (by decide) (by decide)⟩

/-- Claim C2, counterexample: on a malformed argument sequence (the parse
outcome carries a usage error), `run` prints the usage text and the error
line to standard output and does not start the application, but the function
returns normally, so the process exit status is 0 — not non-zero as
claimed. -/
theorem c2_usage_error_exits_zero :
    runEntry "twistd" "Usage: twistd [options]"
        (Except.error "option --bogus not recognized") =
      { printed := ["Usage: twistd [options]",
                    "twistd: option --bogus not recognized"],
        appStarted := false, exitCode := 0 } ∧
    (runEntry "twistd" "Usage: twistd [options]"
        (Except.error "option --bogus not recognized")).exitCode = 0 :=
  ⟨rfl, rfl⟩

/-- Claim C2, amended: for every malformed argument sequence, the top-level
`run` entry point prints the usage text and a human-readable error line to
standard output and does not start the application, but it returns normally
— the process exits with status 0, not a non-zero status. -/
theorem c2_usage_error_prints_and_returns (argv0 usageText ue : String) :
    runEntry argv0 usageText (Except.error ue) =
      { printed := [usageText, argv0 ++ ": " ++ ue],
        appStarted := false, exitCode := 0 } :=
  rfl

/-- Claim C3, counterexample: a configuration whose profiler name is
`"bogus"` (not a supported backend) but which also sets the deprecated
`nothotshot` flag does not terminate with `SystemExit` — `AppProfiler`
overrides the name to `"profile"` and construction succeeds. -/
theorem c3_bogus_profiler_with_nothotshot_succeeds :
    ({ profiler := some "bogus", nothotshot := true } :
      ServerConfig).profiler = some "bogus" ∧
    appProfiler { profiler := some "bogus", nothotshot := true } =
      AppProfilerResult.ok "profile" :=
  ⟨rfl, rfl⟩

/-- Claim C3, amended: unless the deprecated `nothotshot` flag is set (which
forces the `"profile"` backend), constructing `AppProfiler` from a
configuration whose profiler name is not one of `"profile"` and `"hotshot"`
raises `SystemExit` with the message `Unsupported profiler name: <name>`
before the reactor runs; in particular `"bogus"` yields
`Unsupported profiler name: bogus`. -/
theorem c3_unsupported_profiler_exits (options : ServerConfig) (p : String)
    (hn : options.nothotshot = false) (hp : options.profiler = some p)
    (h1 : p ≠ "profile") (h2 : p ≠ "hotshot") :
    appProfiler options =
      AppProfilerResult.systemExit ("Unsupported profiler name: " ++ p) := by
  simp [appProfiler, profilers, hn, hp, pyFormat, h1, h2]

/-- Claim C3 witness: the amended theorem applied at the profiler name
`"bogus"` with the `nothotshot` flag unset. -/
theorem c3_unsupported_profiler_exits_witness :
    ({ profiler := some "bogus" } : ServerConfig).nothotshot = false ∧
    ({ profiler := some "bogus" } : ServerConfig).profiler = some "bogus" ∧
    "bogus" ≠ "profile" ∧ "bogus" ≠ "hotshot" ∧
    appProfiler { profiler := some "bogus" } =
      AppProfilerResult.systemExit "Unsupported profiler name: bogus" :=
  ⟨rfl, rfl, by decide, by decide,
   c3_unsupported_profiler_exits { profiler := some "bogus" } "bogus"
     rfl rfl (by decide) (by decide)⟩

/-- Claim C9: after `ServerOptions.postOptions` runs, if a sub-command was
selected or the `python` option is truthy, the `no_save` option is `true` —
persistence on shutdown is disabled on these paths. -/
theorem c9_no_save_forced (config : ServerConfig)
    (h : pyTruthy config.subCommand = true ∨ pyTruthy config.python = true) :
    (postOptions config).no_save = true := by
  unfold postOptions
  rcases h with h | h <;> simp [h]

/-- Claim C9 witness: the theorem applied at a configuration with a
sub-command selected. -/
theorem c9_no_save_forced_witness :
    (pyTruthy (some "web") = true ∨
      pyTruthy (none : Option String) = true) ∧
    (postOptions { subCommand := some "web" }).no_save = true :=
  ⟨Or.inl (by decide),
   c9_no_save_forced { subCommand := some "web" } (Or.inl (by decide))⟩

/-- Claim C10, counterexample: a configuration produced by `ServerOptions`
with the `file` option explicitly set to the empty string (and no other
selector set) makes the candidate list empty, so the `[0]` indexing in
`getApplication` raises an uncaught `IndexError` — the claim that it never
raises for any `ServerOptions` configuration is false. -/
theorem c10_empty_file_option_index_error :
    sourceCandidates ({ file := some "" } : ServerConfig) = [] ∧
    getApplication (fun f _ _ => Except.ok f)
      ({ file := some "" } : ServerConfig) none = GetAppResult.indexError :=
  ⟨rfl, rfl⟩

/-- Claim C10, amended: when more than one application-source option is set,
`getApplication` does not fail — it silently selects the source by the fixed
priority `python`, `xml`, `source`, `file`; and whenever the `file` option is
truthy (as with its default `"twistd.tap"`), the candidate list is non-empty
and the `[0]` indexing cannot raise.  A configuration that explicitly sets
the `file` option to the empty string escapes this guarantee. -/
theorem c10_priority_and_nonempty (config : ServerConfig)
    (load : String → String → Option String → Except PyExc α)
    (pp : Option String) (hfile : pyTruthy config.file = true) :
    getApplication load config pp ≠ GetAppResult.indexError ∧
    (sourceCandidates config).head? = some
      (if pyTruthy config.python then (pyFormat config.python, "python")
       else if pyTruthy config.xml then (pyFormat config.xml, "xml")
       else if pyTruthy config.source then (pyFormat config.source, "source")
       else (pyFormat config.file, "file")) := by
  have hhead : (sourceCandidates config).head? = some
      (if pyTruthy config.python then (pyFormat config.python, "python")
       else if pyTruthy config.xml then (pyFormat config.xml, "xml")
       else if pyTruthy config.source then (pyFormat config.source, "source")
       else (pyFormat config.file, "file")) := by
    rw [sourceCandidates_eq]
    split_ifs <;> simp_all
  refine ⟨getApplication_ne_indexError load config pp ?_, hhead⟩
  intro hnil
  rw [hnil] at hhead
  exact Option.noConfusion hhead

/-- Claim C10 witness: the amended theorem at a configuration with both the
`python` and `source` selectors set alongside the default `file` value; the
`python` source wins. -/
theorem c10_priority_and_nonempty_witness :
    pyTruthy ({ python := some "app.tac", source := some "app.tas" } :
      ServerConfig).file = true ∧
    (getApplication (fun f _ _ => Except.ok f)
        ({ python := some "app.tac", source := some "app.tas" } :
          ServerConfig) none ≠ GetAppResult.indexError ∧
     (sourceCandidates
        ({ python := some "app.tac", source := some "app.tas" } :
          ServerConfig)).head? = some ("app.tac", "python")) := by
  refine ⟨by decide, ?_⟩
  have h := c10_priority_and_nonempty
    ({ python := some "app.tac", source := some "app.tas" } : ServerConfig)
    (fun f _ _ => Except.ok f) none (by decide)
  simpa using h

/-- Claim C4: when deserializing the application raises an exception,
`getApplication` calls `sys.exit` with a string (terminating the process
with status 1) whose message is the generic
`Failed to load application: <error>` text, extended by the instruction to
define the top-level `application` variable exactly when the exception is a
`KeyError` whose first argument is `"application"`. -/
theorem c4_load_failure_message
    (load : String → String → Option String → Except PyExc α)
    (config : ServerConfig) (pp : Option String)
    (filename t : String) (rest : List (String × String)) (e : PyExc)
    (hc : sourceCandidates config = (filename, t) :: rest)
    (hl : load filename (styleOf t) pp = Except.error e) :
    getApplication load config pp =
      GetAppResult.exit ("\n" ++
        ("Failed to load application: " ++ e.str ++
          (if e = PyExc.keyError "application" then appVarHelp else "")) ++
        "\n") := by
  simp only [getApplication, hc, hl]
  rcases e with a | m
  · by_cases ha : a = "application" <;> simp [ha, String.append_assoc]
  · simp [String.append_assoc]

/-- Claim C4 witness: the theorem applied to a loader failing with
`KeyError("application")` on a configuration selecting a Python file. -/
theorem c4_load_failure_message_witness :
    sourceCandidates ({ python := some "app.tac" } : ServerConfig) =
      [("app.tac", "python"), ("twistd.tap", "file")] ∧
    ((fun (_ _ : String) (_ : Option String) =>
        (Except.error (PyExc.keyError "application") : Except PyExc Unit))
      "app.tac" (styleOf "python") none =
        Except.error (PyExc.keyError "application")) ∧
    getApplication
      (fun _ _ _ => (Except.error (PyExc.keyError "application") :
        Except PyExc Unit))
      ({ python := some "app.tac" } : ServerConfig) none =
      GetAppResult.exit ("\n" ++
        ("Failed to load application: " ++
          (PyExc.keyError "application").str ++
          (if PyExc.keyError "application" = PyExc.keyError "application"
           then appVarHelp else "")) ++ "\n") :=
  ⟨rfl, rfl,
   c4_load_failure_message
     (fun _ _ _ => (Except.error (PyExc.keyError "application") :
       Except PyExc Unit))
     ({ python := some "app.tac" } : ServerConfig) none
     "app.tac" "python" [("twistd.tap", "file")]
     (PyExc.keyError "application") rfl rfl⟩

/-- Claim C5: when a sub-command is selected and its plugin is registered,
`createOrGetApplication` returns a newly created application container named
after the plugin's `tapname` whose single child is exactly the service built
by the plugin's `makeService` on the sub-command's own options; the result
does not depend on the file loader or the passphrase, so no persisted file
is read on this path. -/
theorem c5_subcommand_builds_application {ω σ α : Type}
    (cfg : RunnerConfig ω σ) (sc : String) (plg : Plugin ω σ)
    (load : String → String → Option String → Except PyExc α)
    (passInput : String)
    (hsc : cfg.base.subCommand = some sc) (hne : sc ≠ "")
    (hplg : (cfg.loadedPlugins.find? fun p => p.1 = sc) = some (sc, plg)) :
    createOrGetApplication cfg load passInput =
      CreateOrGet.subApp
        { name := plg.tapname, children := [plg.makeService cfg.subOptions] } := by
  unfold createOrGetApplication
  rw [hsc]
  simp only [pyTruthy, pyFormat, hne, ne_eq, not_false_iff, if_true]
  rw [hplg]
  simp

/-- Claim C5 witness: the theorem applied to a concrete plugin registry with
one plugin named `web`. -/
theorem c5_subcommand_builds_application_witness :
    ({ base := { subCommand := some "web" }, subOptions := (0 : Nat),
       loadedPlugins := [("web", ⟨"web", fun n => toString n⟩)] } :
      RunnerConfig Nat String).base.subCommand = some "web" ∧
    "web" ≠ "" ∧
    (([("web", (⟨"web", fun n => toString n⟩ : Plugin Nat String))].find?
        fun p => p.1 = "web") =
      some ("web", ⟨"web", fun n => toString n⟩)) ∧
    createOrGetApplication
      ({ base := { subCommand := some "web" }, subOptions := (0 : Nat),
         loadedPlugins := [("web", ⟨"web", fun n => toString n⟩)] } :
        RunnerConfig Nat String)
      (fun _ _ _ => Except.ok ()) "pw" =
      CreateOrGet.subApp { name := "web", children := ["0"] } :=
  ⟨rfl, by decide, rfl,
   c5_subcommand_builds_application
     ({ base := { subCommand := some "web" }, subOptions := (0 : Nat),
        loadedPlugins := [("web", ⟨"web", fun n => toString n⟩)] } :
       RunnerConfig Nat String)
     "web" ⟨"web", fun n => toString n⟩
     (fun _ _ _ => Except.ok ()) "pw" rfl (by decide) rfl⟩

/-- Claim C6: every exception escaping the dispatched run call inside
`runReactorWithLogging` is caught once by the single top-level handler: the
traceback is written to the original standard output when the `nodaemon`
option is set and otherwise to `TWISTD-CRASH.log` opened in append mode,
the chosen file is then flushed, and no exception is re-raised. -/
theorem c6_crash_caught_once (config : ServerConfig) (oldstdout : Sink)
    (profilerPresent : Bool) (e : PyExc) :
    runReactorWithLogging config oldstdout profilerPresent (some e) =
      { call := reactorDispatch config profilerPresent,
        crashSink := some (if config.nodaemon then oldstdout
                           else Sink.opened "TWISTD-CRASH.log" "a"),
        flushed := true, raised := none } :=
  rfl

/-- Claim C7: `startApplication` starts the application's service, always
registers a before-shutdown trigger stopping the service, registers an
after-shutdown trigger persisting the application exactly when `save` is
true, and at shutdown the reactor fires the before-phase trigger first, so
services are stopped before the application is persisted. -/
theorem c7_startApplication_shutdown_order (save : Bool) :
    (startApplication save).1 = [AppAction.startService] ∧
    ({ phase := Phase.before, event := "shutdown",
       callback := AppAction.stopService } : Trigger) ∈
      (startApplication save).2 ∧
    ((({ phase := Phase.after, event := "shutdown",
         callback := AppAction.saveApp } : Trigger) ∈
        (startApplication save).2) ↔ save = true) ∧
    fireShutdown (startApplication save).2 =
      AppAction.stopService ::
        (if save then [AppAction.saveApp] else []) := by
  cases save <;> decide

/-- Claim C8: with the profiling module importable, each profiler backend's
`run` invokes the reactor's run call exactly once and, on completion, writes
raw statistics to the output path when `saveStats` is set and otherwise
prints formatted statistics to the output path; in every case — including
when printing raises — `sys.stdout` after `run` equals its value before the
call. -/
theorem c8_profiler_run_once_stdout_restored (self : BasicProfiler)
    (initStdout : Sink) (hasStream printFails : Bool) :
    profileRunnerRun self initStdout true printFails =
      { reactorRuns := 1,
        statsOutput :=
          if self.saveStats then some (self.profileOutput, true)
          else if printFails then none else some (self.profileOutput, false),
        finalStdout := initStdout,
        exc := if self.saveStats then none
               else if printFails then some "print_stats error" else none } ∧
    hotshotRunnerRun self initStdout true hasStream printFails =
      { reactorRuns := 1,
        statsOutput :=
          if self.saveStats then some (self.profileOutput, true)
          else if printFails then none else some (self.profileOutput, false),
        finalStdout := initStdout,
        exc := if self.saveStats then none
               else if printFails then some "print_stats error" else none } := by
  obtain ⟨out, ss⟩ := self
  cases ss <;> cases printFails <;> cases hasStream <;>
    exact ⟨rfl, rfl⟩

end TwistedApp
